import Mathlib

/-!
Verification of the wire-protocol decoding subsystem of ib/client/message.py.

The decoders consume delimited tokens from a socket through three primitive
readers (readInt, readFloat, readStr).  We embed the token stream as a list
of typed tokens, and each decoder's field-extraction logic as a tree of
read operations (a free monad over the three primitive reads, written in
continuation style).  Python floats are embedded as exact rationals: the
decoders perform no floating-point arithmetic, only pass-through of read
values and order comparisons, so the embedding is faithful.
-/

/-- A delimited token on the wire, carrying the value the corresponding
primitive reader would produce for it. -/
inductive Tok : Type
  | tint (n : Int)
  | tfloat (q : Rat)
  | tstr (s : String)
deriving DecidableEq

/-- Failures that abort a message decode: a token of the wrong type
(MalformedField), an exhausted stream (StreamTruncated), or a Python
AttributeError raised by the decode code itself - the decoder classes
ContractDetails and Execution shadow the ib.types value objects imported
at the top of message.py, so the reads that construct `ContractDetails()`
and then assign through `.summary` raise AttributeError mid-decode (see
`Decode.fail`). -/
inductive ReadErr : Type
  | malformed
  | truncated
  | attrError
deriving DecidableEq

/-- The kind of a primitive read operation, used to compare the read
sequences of different protocol versions. -/
inductive ReadOp : Type
  | rint
  | rfloat
  | rstr
deriving DecidableEq

/-- A dynamically typed value, as stored into message slots whose type
depends on the decoder (TickBase.message.value holds a price float or a
size int; TickOptionComputation stores a float or the empty-string
sentinel). -/
inductive Val : Type
  | vI (n : Int)
  | vF (q : Rat)
  | vS (s : String)
deriving DecidableEq

/-- The field-extraction logic of a decoder: a finite tree of primitive
read requests ending either in a fully computed result (`done`) or in a
step at which the Python code raises an exception of its own (`fail`):
the AttributeError caused by the decoder classes ContractDetails and
Execution shadowing the imported ib.types value objects, which aborts
the decode exactly like a failing read.  Each `read` method of
message.py is translated into one such tree. -/
inductive Decode (α : Type) : Type
  | done (a : α)
  | fail
  | readInt (k : Int → Decode α)
  | readFloat (k : Rat → Decode α)
  | readStr (k : String → Decode α)

/-- Run a decode tree against a token stream: each primitive read consumes
exactly one token, failing with `malformed` on a type mismatch and
`truncated` on an empty stream; any failure aborts the remaining reads
(the Python readers raise, and the `read` methods have no handler). -/
def runD {α : Type} : Decode α → List Tok → Except ReadErr (α × List Tok)
  | .done a, s => .ok (a, s)
  | .fail, _ => .error .attrError
  | .readInt _, [] => .error .truncated
  | .readInt k, .tint n :: s => runD (k n) s
  | .readInt _, _ :: _ => .error .malformed
  | .readFloat _, [] => .error .truncated
  | .readFloat k, .tfloat q :: s => runD (k q) s
  | .readFloat _, _ :: _ => .error .malformed
  | .readStr _, [] => .error .truncated
  | .readStr k, .tstr t :: s => runD (k t) s
  | .readStr _, _ :: _ => .error .malformed

/-- The tokens a decode tree successfully consumes from a stream before
finishing or before the first failing read. -/
def consumed {α : Type} : Decode α → List Tok → List Tok
  | .done _, _ => []
  | .fail, _ => []
  | .readInt _, [] => []
  | .readInt k, .tint n :: s => Tok.tint n :: consumed (k n) s
  | .readInt _, _ :: _ => []
  | .readFloat _, [] => []
  | .readFloat k, .tfloat q :: s => Tok.tfloat q :: consumed (k q) s
  | .readFloat _, _ :: _ => []
  | .readStr _, [] => []
  | .readStr k, .tstr t :: s => Tok.tstr t :: consumed (k t) s
  | .readStr _, _ :: _ => []

/-- The sequence of primitive reads a decode tree performs, with every
read answered by a canonical value (1 for ints, 1 for floats, the empty
string).  For every version-gated decoder body the reads depend only on
the version, so this is the decoder's read sequence for that version. -/
def opsD {α : Type} : Decode α → List ReadOp
  | .done _ => []
  | .fail => []
  | .readInt k => ReadOp.rint :: opsD (k 1)
  | .readFloat k => ReadOp.rfloat :: opsD (k 1)
  | .readStr k => ReadOp.rstr :: opsD (k "")

/-- `x = dflt; if cond: x = readInt()` - the version-gating idiom of the
source: read the field when the version condition holds, otherwise pass
the documented default to the continuation. -/
def readIntIf {α : Type} (c : Prop) [Decidable c] (dflt : Int)
    (k : Int → Decode α) : Decode α :=
  if c then .readInt k else k dflt

/-- Float variant of the version-gating read idiom. -/
def readFloatIf {α : Type} (c : Prop) [Decidable c] (dflt : Rat)
    (k : Rat → Decode α) : Decode α :=
  if c then .readFloat k else k dflt

/-- String variant of the version-gating read idiom. -/
def readStrIf {α : Type} (c : Prop) [Decidable c] (dflt : String)
    (k : String → Decode α) : Decode α :=
  if c then .readStr k else k dflt

/-- `if cond: obj.x = readInt()` with no prior default, writing a plain
dynamic attribute: below the version threshold the attribute is never
set at all, modelled as `none`. -/
def readIntOpt {α : Type} (c : Prop) [Decidable c]
    (k : Option Int → Decode α) : Decode α :=
  if c then .readInt fun n => k (some n) else k none

/-- Modelled from the spec: the Contract value object (ib.types, absent
from src) into which contract-description fields are written.  Per the
spec every field slot not written during a decode keeps its documented
default: the empty string, zero, or a zero-valued numeric (false for the
0/1-encoded boolean bond flags). -/
structure Contract : Type where
  symbol : String := ""
  secType : String := ""
  expiry : String := ""
  strike : Rat := 0
  right : String := ""
  exchange : String := ""
  currency : String := ""
  localSymbol : String := ""
  cusip : String := ""
  coupon : Rat := 0
  maturity : String := ""
  issueDate : String := ""
  ratings : String := ""
  bondType : String := ""
  couponType : String := ""
  convertible : Bool := false
  callable : Bool := false
  putable : Bool := false
  descAppend : String := ""
deriving DecidableEq

/-- The ContractDetails value object of ib/types/contractdetails.py, with
its constructor defaults (summary a fresh Contract, empty strings, conId
0, minTick 0, priceMagnifier 0). -/
structure ContractDetails : Type where
  summary : Contract := {}
  marketName : String := ""
  tradingClass : String := ""
  conId : Int := 0
  minTick : Rat := 0
  multiplier : String := ""
  priceMagnifier : Int := 0
  orderTypes : String := ""
  validExchanges : String := ""
deriving DecidableEq

/-- The attribute bag Execution.read builds its details in.  The decoder
class Execution shadows the ib.types Execution imported at the top of
message.py, so `details = Execution()` constructs the decoder instance
itself and the subsequent assignments set plain dynamic attributes on
it; fields guarded by version gates are therefore absent - never set at
all - below their thresholds (`none`), not defaulted. -/
structure ExecutionDetails : Type where
  orderId : Int
  execId : String
  time : String
  acctNumber : String
  exchange : String
  side : String
  shares : Int
  price : Rat
  permId : Option Int
  clientId : Option Int
  liquidation : Option Int
deriving DecidableEq

/-- Modelled from the spec: the Order value object (ib.types, absent from
src); unwritten slots default to empty string, zero, or false. -/
structure Order : Type where
  orderId : Int := 0
  action : String := ""
  totalQuantity : Int := 0
  orderType : String := ""
  lmtPrice : Rat := 0
  auxPrice : Rat := 0
  tif : String := ""
  ocaGroup : String := ""
  account : String := ""
  openClose : String := ""
  origin : Int := 0
  orderRef : String := ""
  clientId : Int := 0
  permId : Int := 0
  ignoreRth : Bool := false
  hidden : Bool := false
  discretionaryAmt : Rat := 0
  goodAfterTime : String := ""
  sharesAllocation : String := ""
  faGroup : String := ""
  faMethod : String := ""
  faPercentage : String := ""
  faProfile : String := ""
  goodTillDate : String := ""
  rule80A : String := ""
  percentOffset : Rat := 0
  settlingFirm : String := ""
  shortSaleSlot : Int := 0
  designatedLocation : String := ""
  auctionStrategy : Int := 0
  startingPrice : Rat := 0
  stockRefPrice : Rat := 0
  delta : Rat := 0
  stockRangeLower : Rat := 0
  stockRangeUpper : Rat := 0
  displaySize : Int := 0
  rthOnly : Bool := false
  blockOrder : Bool := false
  sweepToFill : Bool := false
  allOrNone : Bool := false
  minQty : Int := 0
  ocaType : Int := 0
  eTradeOnly : Bool := false
  firmQuoteOnly : Bool := false
  nbboPriceCap : Rat := 0
  parentId : Int := 0
  triggerMethod : Int := 0
  volatility : Rat := 0
  volatilityType : Int := 0
  deltaNeutralOrderType : String := ""
  deltaNeutralAuxPrice : Rat := 0
  continuousUpdate : Int := 0
  referencePriceType : Int := 0
deriving DecidableEq

/-- Modelled from the spec: the numeric TickType constants (ib.types,
absent from src) naming the price kinds bid, ask and last and their
size counterparts, following the IB tick-type enumeration. -/
def TickType.BID_SIZE : Int := 0

/-- Modelled from the spec: the bid price kind. -/
def TickType.BID : Int := 1

/-- Modelled from the spec: the ask price kind. -/
def TickType.ASK : Int := 2

/-- Modelled from the spec: the ask-size kind. -/
def TickType.ASK_SIZE : Int := 3

/-- Modelled from the spec: the last-trade price kind. -/
def TickType.LAST : Int := 4

/-- Modelled from the spec: the last-trade size kind. -/
def TickType.LAST_SIZE : Int := 5

/-- Generated message instance of AccountValue / AccountTime (the shared
`AccountBase.message` with slots key, value, currency, accountName). -/
structure AccountMsg : Type where
  key : String
  value : String
  currency : String
  accountName : String
deriving DecidableEq

/-- AccountValue.read after the version field: key, value, currency, and
(version >= 2) accountName, which otherwise defaults to the empty
string. -/
def accountValueBody (version : Int) : Decode AccountMsg :=
  .readStr fun key =>
  .readStr fun value =>
  .readStr fun currency =>
  readStrIf (2 ≤ version) "" fun accountName =>
  .done { key := key, value := value, currency := currency,
          accountName := accountName }

/-- AccountValue.read: version field first, then the version-gated body. -/
def decodeAccountValue : Decode AccountMsg :=
  .readInt accountValueBody

/-- AccountTime.read after the version field: a single timeStamp string;
the message is built with key 'TimeStamp', the time as value, and empty
currency and accountName. -/
def accountTimeBody (_version : Int) : Decode AccountMsg :=
  .readStr fun timeStamp =>
  .done { key := "TimeStamp", value := timeStamp, currency := "",
          accountName := "" }

/-- AccountTime.read: version field first, then the body. -/
def decodeAccountTime : Decode AccountMsg :=
  .readInt accountTimeBody

/-- Message shape of the ContractDetails decoder (its inner `detail`
class, slot `details`); never actually constructed, since the decode
aborts with AttributeError first. -/
structure ContractDetailsMsg : Type where
  details : ContractDetails
deriving DecidableEq

/-- ContractDetails.read after the version field.  The decoder class
ContractDetails shadows the ib.types value object, so `details =
ContractDetails()` constructs the decoder itself; the first field
assignment `details.summary.symbol = readStr()` evaluates the read and
then raises AttributeError (a decoder has no summary), aborting the
decode after exactly one string read at every version - the remaining
fourteen reads and the version-2 priceMagnifier read are unreachable. -/
def contractDetailsBody (_version : Int) : Decode ContractDetailsMsg :=
  .readStr fun _symbol =>
  .fail

/-- ContractDetails.read: version field first, then the body. -/
def decodeContractDetails : Decode ContractDetailsMsg :=
  .readInt contractDetailsBody

/-- Generated message instance of the Error decoder: error_id and
error_code are Python None (here `Option.none`) below version 2. -/
structure ErrorMsg : Type where
  error_id : Option Int
  error_code : Option Int
  error_msg : String
deriving DecidableEq

/-- Error.read after the version field: below version 2 only the message
string is read and id/code are None; from version 2 an id and a code
precede the message string. -/
def errorBody (version : Int) : Decode ErrorMsg :=
  if version < 2 then
    .readStr fun error_msg =>
    .done { error_id := none, error_code := none, error_msg := error_msg }
  else
    .readInt fun error_id =>
    .readInt fun error_code =>
    .readStr fun error_msg =>
    .done { error_id := some error_id, error_code := some error_code,
            error_msg := error_msg }

/-- Error.read: version field first, then the version-shaped body. -/
def decodeError : Decode ErrorMsg :=
  .readInt errorBody

/-- Generated message instance of the Execution decoder. -/
structure ExecutionMsg : Type where
  orderId : Int
  contract : Contract
  details : ExecutionDetails
deriving DecidableEq

/-- Execution.read after the version field: orderId, the contract
description (Contract is not shadowed), then the execution details -
written into the shadowing decoder instance - with permId (version
>= 2), clientId (version >= 3) and liquidation (version >= 4) gated;
below their thresholds those attributes are never set. -/
def executionBody (version : Int) : Decode ExecutionMsg :=
  .readInt fun orderId =>
  .readStr fun symbol =>
  .readStr fun secType =>
  .readStr fun expiry =>
  .readFloat fun strike =>
  .readStr fun right =>
  .readStr fun exchange =>
  .readStr fun currency =>
  .readStr fun localSymbol =>
  .readStr fun execId =>
  .readStr fun time =>
  .readStr fun acctNumber =>
  .readStr fun exchange2 =>
  .readStr fun side =>
  .readInt fun shares =>
  .readFloat fun price =>
  readIntOpt (2 ≤ version) fun permId =>
  readIntOpt (3 ≤ version) fun clientId =>
  readIntOpt (4 ≤ version) fun liquidation =>
  .done { orderId := orderId,
          contract := { symbol := symbol, secType := secType,
                        expiry := expiry, strike := strike, right := right,
                        exchange := exchange, currency := currency,
                        localSymbol := localSymbol },
          details := { orderId := orderId, execId := execId, time := time,
                       acctNumber := acctNumber, exchange := exchange2,
                       side := side, shares := shares, price := price,
                       permId := permId, clientId := clientId,
                       liquidation := liquidation } }

/-- Execution.read: version field first, then the body. -/
def decodeExecution : Decode ExecutionMsg :=
  .readInt executionBody

/-- Generated message instance of the ManagedAccounts decoder. -/
structure ManagedAccountsMsg : Type where
  accounts : String
deriving DecidableEq

/-- ManagedAccounts.read after the version field: one accounts string. -/
def managedAccountsBody (_version : Int) : Decode ManagedAccountsMsg :=
  .readStr fun accounts =>
  .done { accounts := accounts }

/-- ManagedAccounts.read: version field first, then the body. -/
def decodeManagedAccounts : Decode ManagedAccountsMsg :=
  .readInt managedAccountsBody

/-- Generated message instance of the MarketDepth decoder. -/
structure MarketDepthMsg : Type where
  tickerId : Int
  position : Int
  operation : Int
  side : Int
  price : Rat
  size : Int
deriving DecidableEq

/-- MarketDepth.read after the version field: six unconditional fields. -/
def marketDepthBody (_version : Int) : Decode MarketDepthMsg :=
  .readInt fun tickerId =>
  .readInt fun position =>
  .readInt fun operation =>
  .readInt fun side =>
  .readFloat fun price =>
  .readInt fun size =>
  .done { tickerId := tickerId, position := position,
          operation := operation, side := side, price := price,
          size := size }

/-- MarketDepth.read: version field first, then the body. -/
def decodeMarketDepth : Decode MarketDepthMsg :=
  .readInt marketDepthBody

/-- Generated message instance of the MarketDepthLevel2 decoder. -/
structure MarketDepthLevel2Msg : Type where
  tickerId : Int
  position : Int
  market_maker : String
  operation : Int
  side : Int
  price : Rat
  size : Int
deriving DecidableEq

/-- MarketDepthLevel2.read after the version field: seven unconditional
fields, with market_maker read between position and operation. -/
def marketDepthLevel2Body (_version : Int) : Decode MarketDepthLevel2Msg :=
  .readInt fun tickerId =>
  .readInt fun position =>
  .readStr fun market_maker =>
  .readInt fun operation =>
  .readInt fun side =>
  .readFloat fun price =>
  .readInt fun size =>
  .done { tickerId := tickerId, position := position,
          market_maker := market_maker, operation := operation,
          side := side, price := price, size := size }

/-- MarketDepthLevel2.read: version field first, then the body. -/
def decodeMarketDepthLevel2 : Decode MarketDepthLevel2Msg :=
  .readInt marketDepthLevel2Body

/-- Generated message instance of the NextId decoder. -/
structure NextIdMsg : Type where
  nextValidId : Int
deriving DecidableEq

/-- NextId.read after the version field: one integer. -/
def nextIdBody (_version : Int) : Decode NextIdMsg :=
  .readInt fun nextValidId =>
  .done { nextValidId := nextValidId }

/-- NextId.read: version field first, then the body. -/
def decodeNextId : Decode NextIdMsg :=
  .readInt nextIdBody

/-- Generated message instance of the OpenOrder decoder. -/
structure OpenOrderMsg : Type where
  orderId : Int
  contract : Contract
  order : Order
deriving DecidableEq

/-- OpenOrder.read after the version field: orderId, the contract
description (localSymbol from version 2), the unconditional order
fields, then the version-gated groups of the source: clientId (>= 3);
permId, the 0/1 flags ignoreRth and hidden, discretionaryAmt (>= 4);
goodAfterTime (>= 5); sharesAllocation (>= 6); the four fa fields
(>= 7); goodTillDate (>= 8); the rule80A block with its bool(readInt())
flags (>= 9); parentId and triggerMethod (>= 10); and the volatility
block (>= 11), in which version 11 exactly encodes deltaNeutralOrderType
as an integer (0 meaning NONE, anything else MKT) while later versions
send it as a string followed by deltaNeutralAuxPrice. -/
def openOrderBody (version : Int) : Decode OpenOrderMsg :=
  .readInt fun orderId =>
  .readStr fun symbol =>
  .readStr fun secType =>
  .readStr fun expiry =>
  .readFloat fun strike =>
  .readStr fun right =>
  .readStr fun exchange =>
  .readStr fun currency =>
  readStrIf (2 ≤ version) "" fun localSymbol =>
  .readStr fun action =>
  .readInt fun totalQuantity =>
  .readStr fun orderType =>
  .readFloat fun lmtPrice =>
  .readFloat fun auxPrice =>
  .readStr fun tif =>
  .readStr fun ocaGroup =>
  .readStr fun account =>
  .readStr fun openClose =>
  .readInt fun origin =>
  .readStr fun orderRef =>
  readIntIf (3 ≤ version) 0 fun clientId =>
  readIntIf (4 ≤ version) 0 fun permId =>
  readIntIf (4 ≤ version) 0 fun ignoreRthInt =>
  readIntIf (4 ≤ version) 0 fun hiddenInt =>
  readFloatIf (4 ≤ version) 0 fun discretionaryAmt =>
  readStrIf (5 ≤ version) "" fun goodAfterTime =>
  readStrIf (6 ≤ version) "" fun sharesAllocation =>
  readStrIf (7 ≤ version) "" fun faGroup =>
  readStrIf (7 ≤ version) "" fun faMethod =>
  readStrIf (7 ≤ version) "" fun faPercentage =>
  readStrIf (7 ≤ version) "" fun faProfile =>
  readStrIf (8 ≤ version) "" fun goodTillDate =>
  readStrIf (9 ≤ version) "" fun rule80A =>
  readFloatIf (9 ≤ version) 0 fun percentOffset =>
  readStrIf (9 ≤ version) "" fun settlingFirm =>
  readIntIf (9 ≤ version) 0 fun shortSaleSlot =>
  readStrIf (9 ≤ version) "" fun designatedLocation =>
  readIntIf (9 ≤ version) 0 fun auctionStrategy =>
  readFloatIf (9 ≤ version) 0 fun startingPrice =>
  readFloatIf (9 ≤ version) 0 fun stockRefPrice =>
  readFloatIf (9 ≤ version) 0 fun delta =>
  readFloatIf (9 ≤ version) 0 fun stockRangeLower =>
  readFloatIf (9 ≤ version) 0 fun stockRangeUpper =>
  readIntIf (9 ≤ version) 0 fun displaySize =>
  readIntIf (9 ≤ version) 0 fun rthOnlyInt =>
  readIntIf (9 ≤ version) 0 fun blockOrderInt =>
  readIntIf (9 ≤ version) 0 fun sweepToFillInt =>
  readIntIf (9 ≤ version) 0 fun allOrNoneInt =>
  readIntIf (9 ≤ version) 0 fun minQty =>
  readIntIf (9 ≤ version) 0 fun ocaType =>
  readIntIf (9 ≤ version) 0 fun eTradeOnlyInt =>
  readIntIf (9 ≤ version) 0 fun firmQuoteOnlyInt =>
  readFloatIf (9 ≤ version) 0 fun nbboPriceCap =>
  readIntIf (10 ≤ version) 0 fun parentId =>
  readIntIf (10 ≤ version) 0 fun triggerMethod =>
  readFloatIf (11 ≤ version) 0 fun volatility =>
  readIntIf (11 ≤ version) 0 fun volatilityType =>
  (fun (k : String → Rat → Decode OpenOrderMsg) =>
    if 11 ≤ version then
      if version = 11 then
        .readInt fun receivedInt =>
          k (if receivedInt = 0 then "NONE" else "MKT") 0
      else
        .readStr fun deltaNeutralOrderType =>
        .readFloat fun deltaNeutralAuxPrice =>
        k deltaNeutralOrderType deltaNeutralAuxPrice
    else k "" 0)
  fun deltaNeutralOrderType deltaNeutralAuxPrice =>
  readIntIf (11 ≤ version) 0 fun continuousUpdate =>
  readIntIf (11 ≤ version) 0 fun referencePriceType =>
  .done { orderId := orderId,
          contract := { symbol := symbol, secType := secType,
                        expiry := expiry, strike := strike, right := right,
                        exchange := exchange, currency := currency,
                        localSymbol := localSymbol },
          order := { orderId := orderId, action := action,
                     totalQuantity := totalQuantity, orderType := orderType,
                     lmtPrice := lmtPrice, auxPrice := auxPrice, tif := tif,
                     ocaGroup := ocaGroup, account := account,
                     openClose := openClose, origin := origin,
                     orderRef := orderRef, clientId := clientId,
                     permId := permId, ignoreRth := ignoreRthInt == 1,
                     hidden := hiddenInt == 1,
                     discretionaryAmt := discretionaryAmt,
                     goodAfterTime := goodAfterTime,
                     sharesAllocation := sharesAllocation,
                     faGroup := faGroup, faMethod := faMethod,
                     faPercentage := faPercentage, faProfile := faProfile,
                     goodTillDate := goodTillDate, rule80A := rule80A,
                     percentOffset := percentOffset,
                     settlingFirm := settlingFirm,
                     shortSaleSlot := shortSaleSlot,
                     designatedLocation := designatedLocation,
                     auctionStrategy := auctionStrategy,
                     startingPrice := startingPrice,
                     stockRefPrice := stockRefPrice, delta := delta,
                     stockRangeLower := stockRangeLower,
                     stockRangeUpper := stockRangeUpper,
                     displaySize := displaySize,
                     rthOnly := rthOnlyInt != 0,
                     blockOrder := blockOrderInt != 0,
                     sweepToFill := sweepToFillInt != 0,
                     allOrNone := allOrNoneInt != 0, minQty := minQty,
                     ocaType := ocaType, eTradeOnly := eTradeOnlyInt != 0,
                     firmQuoteOnly := firmQuoteOnlyInt != 0,
                     nbboPriceCap := nbboPriceCap, parentId := parentId,
                     triggerMethod := triggerMethod,
                     volatility := volatility,
                     volatilityType := volatilityType,
                     deltaNeutralOrderType := deltaNeutralOrderType,
                     deltaNeutralAuxPrice := deltaNeutralAuxPrice,
                     continuousUpdate := continuousUpdate,
                     referencePriceType := referencePriceType } }

/-- OpenOrder.read: version field first, then the body. -/
def decodeOpenOrder : Decode OpenOrderMsg :=
  .readInt openOrderBody

/-- Generated message instance of the OrderStatus decoder. -/
structure OrderStatusMsg : Type where
  orderId : Int
  message : String
  filled : Int
  remaining : Int
  avgFillPrice : Rat
  permId : Int
  parentId : Int
  lastFillPrice : Rat
  clientId : Int
deriving DecidableEq

/-- OrderStatus.read after the version field: five unconditional fields,
then permId (>= 2), parentId (>= 3), lastFillPrice (>= 4) and clientId
(>= 5), each defaulting to zero below its threshold. -/
def orderStatusBody (version : Int) : Decode OrderStatusMsg :=
  .readInt fun orderId =>
  .readStr fun message =>
  .readInt fun filled =>
  .readInt fun remaining =>
  .readFloat fun avgFillPrice =>
  readIntIf (2 ≤ version) 0 fun permId =>
  readIntIf (3 ≤ version) 0 fun parentId =>
  readFloatIf (4 ≤ version) 0 fun lastFillPrice =>
  readIntIf (5 ≤ version) 0 fun clientId =>
  .done { orderId := orderId, message := message, filled := filled,
          remaining := remaining, avgFillPrice := avgFillPrice,
          permId := permId, parentId := parentId,
          lastFillPrice := lastFillPrice, clientId := clientId }

/-- OrderStatus.read: version field first, then the body. -/
def decodeOrderStatus : Decode OrderStatusMsg :=
  .readInt orderStatusBody

/-- Generated message instance of the Portfolio decoder. -/
structure PortfolioMsg : Type where
  contract : Contract
  position : Int
  market_price : Rat
  market_value : Rat
  average_cost : Rat
  unrealized_pnl : Rat
  realized_pnl : Rat
  accountName : String
deriving DecidableEq

/-- Portfolio.read after the version field: six contract fields (with no
exchange read), localSymbol (>= 2), position and the two market floats,
the three pnl floats (>= 3, zero below) and accountName (>= 4, empty
below). -/
def portfolioBody (version : Int) : Decode PortfolioMsg :=
  .readStr fun symbol =>
  .readStr fun secType =>
  .readStr fun expiry =>
  .readFloat fun strike =>
  .readStr fun right =>
  .readStr fun currency =>
  readStrIf (2 ≤ version) "" fun localSymbol =>
  .readInt fun position =>
  .readFloat fun market_price =>
  .readFloat fun market_value =>
  (fun (k : Rat → Rat → Rat → Decode PortfolioMsg) =>
    if 3 ≤ version then
      .readFloat fun average_cost =>
      .readFloat fun unrealized_pnl =>
      .readFloat fun realized_pnl =>
      k average_cost unrealized_pnl realized_pnl
    else k 0 0 0)
  fun average_cost unrealized_pnl realized_pnl =>
  readStrIf (4 ≤ version) "" fun accountName =>
  .done { contract := { symbol := symbol, secType := secType,
                        expiry := expiry, strike := strike, right := right,
                        currency := currency, localSymbol := localSymbol },
          position := position, market_price := market_price,
          market_value := market_value, average_cost := average_cost,
          unrealized_pnl := unrealized_pnl, realized_pnl := realized_pnl,
          accountName := accountName }

/-- Portfolio.read: version field first, then the body. -/
def decodePortfolio : Decode PortfolioMsg :=
  .readInt portfolioBody

/-- Generated message instance of TickPrice / TickSize (the shared
`TickBase.message`); `value` holds a price float or a size integer, and
canAutoExecute defaults to 0 when the constructor is not given one. -/
structure TickMsg : Type where
  tickerId : Int
  field : Int
  value : Val
  canAutoExecute : Int
deriving DecidableEq

/-- The primitive reads of TickPrice.read, version field included:
tickerId, tickType and price always; size (>= 2, zero below) and
canAutoExecute (>= 3, zero below).  The raw tuple is returned so that
the dispatch wrapper can build both the price message and, from version
2, the derived size message. -/
def tickPriceReads : Decode (Int × Int × Int × Rat × Int × Int) :=
  .readInt fun version =>
  .readInt fun tickerId =>
  .readInt fun tickType =>
  .readFloat fun price =>
  readIntIf (2 ≤ version) 0 fun size =>
  readIntIf (3 ≤ version) 0 fun canAutoExecute =>
  .done (version, tickerId, tickType, price, size, canAutoExecute)

/-- TickPrice.read after the version field, restricted to the price
message it constructs (tickerId, field := tickType, value := price,
canAutoExecute; the size read is consumed for the derived message and
does not appear here). -/
def tickPriceBody (version : Int) : Decode TickMsg :=
  .readInt fun tickerId =>
  .readInt fun tickType =>
  .readFloat fun price =>
  readIntIf (2 ≤ version) 0 fun _size =>
  readIntIf (3 ≤ version) 0 fun canAutoExecute =>
  .done { tickerId := tickerId, field := tickType, value := Val.vF price,
          canAutoExecute := canAutoExecute }

/-- TickPrice.read: version field first, then the body. -/
def decodeTickPrice : Decode TickMsg :=
  .readInt tickPriceBody

/-- TickSize.read after the version field: tickerId, tickType and the
integer size; canAutoExecute keeps the constructor default 0. -/
def tickSizeBody (_version : Int) : Decode TickMsg :=
  .readInt fun tickerId =>
  .readInt fun tickType =>
  .readInt fun size =>
  .done { tickerId := tickerId, field := tickType, value := Val.vI size,
          canAutoExecute := 0 }

/-- TickSize.read: version field first, then the body. -/
def decodeTickSize : Decode TickMsg :=
  .readInt tickSizeBody

/-- Generated message instance of the TickOptionComputation decoder:
impliedVol and delta hold the float read from the wire, or the
empty-string sentinel after normalization. -/
structure TickOptionComputationMsg : Type where
  tickerId : Int
  field : Int
  impliedVol : Val
  delta : Val
deriving DecidableEq

/-- TickOptionComputation.read after the version field: tickerId and
tickType, then impliedVol (replaced by the empty-string sentinel when
strictly below zero) and delta (replaced by the sentinel when its
absolute value strictly exceeds 1). -/
def tickOptionComputationBody (_version : Int) :
    Decode TickOptionComputationMsg :=
  .readInt fun tickerId =>
  .readInt fun tickType =>
  .readFloat fun impliedVol =>
  .readFloat fun delta =>
  .done { tickerId := tickerId, field := tickType,
          impliedVol := if impliedVol < 0 then Val.vS "" else Val.vF impliedVol,
          delta := if 1 < |delta| then Val.vS "" else Val.vF delta }

/-- TickOptionComputation.read: version field first, then the body. -/
def decodeTickOptionComputation : Decode TickOptionComputationMsg :=
  .readInt tickOptionComputationBody

/-- Generated message instance of the NewsBulletin decoder. -/
structure NewsBulletinMsg : Type where
  news_id : Int
  news_type : Int
  news_message : String
  news_exchange : String
deriving DecidableEq

/-- NewsBulletin.read after the version field: id, type, message text
and exchange. -/
def newsBulletinBody (_version : Int) : Decode NewsBulletinMsg :=
  .readInt fun news_id =>
  .readInt fun news_type =>
  .readStr fun news_message =>
  .readStr fun news_exchange =>
  .done { news_id := news_id, news_type := news_type,
          news_message := news_message, news_exchange := news_exchange }

/-- NewsBulletin.read: version field first, then the body. -/
def decodeNewsBulletin : Decode NewsBulletinMsg :=
  .readInt newsBulletinBody

/-- Generated message instance of the ReceiveFa decoder. -/
structure ReceiveFaMsg : Type where
  data_type : Int
  xml : String
deriving DecidableEq

/-- ReceiveFa.read after the version field: the data type integer and
the xml payload string. -/
def receiveFaBody (_version : Int) : Decode ReceiveFaMsg :=
  .readInt fun data_type =>
  .readStr fun xml =>
  .done { data_type := data_type, xml := xml }

/-- ReceiveFa.read: version field first, then the body. -/
def decodeReceiveFa : Decode ReceiveFaMsg :=
  .readInt receiveFaBody

/-- Python's str.lower() for the ASCII protocol tokens: each character
lowercased (the hasGaps token is lowercased before being compared with
"true"). -/
def pyLower (s : String) : String := ⟨s.data.map Char.toLower⟩

/-- One row of a HistoricalData message: date, four price floats, the
integer volume, the weighted average price, and the hasGaps flag
produced by comparing the lowercased wire token with "true". -/
structure HistRow : Type where
  date : String
  «open» : Rat
  high : Rat
  low : Rat
  close : Rat
  volume : Int
  wap : Rat
  hasGaps : Bool
deriving DecidableEq

/-- Generated message instance of the HistoricalData decoder, which
stores the version itself alongside tickerId and the row list. -/
structure HistoricalDataMsg : Type where
  version : Int
  tickerId : Int
  rows : List HistRow
deriving DecidableEq

/-- The row loop of HistoricalData.read: each of the `nitems` iterations
reads date, open, high, low, close, volume, wap and the hasGaps token,
lowercased and compared with "true"; rows are appended in input order. -/
def histRows (k : List HistRow → Decode HistoricalDataMsg) :
    Nat → Decode HistoricalDataMsg
  | 0 => k []
  | n + 1 =>
    .readStr fun date =>
    .readFloat fun openPx =>
    .readFloat fun high =>
    .readFloat fun low =>
    .readFloat fun close =>
    .readInt fun volume =>
    .readFloat fun wap =>
    .readStr fun hasGaps =>
    histRows
      (fun rows =>
        k ({ date := date, «open» := openPx, high := high, low := low,
             close := close, volume := volume, wap := wap,
             hasGaps := pyLower hasGaps == "true" } :: rows))
      n

/-- HistoricalData.read after the version field: tickerId, the row
count, then that many identical row groups. -/
def historicalDataBody (version : Int) : Decode HistoricalDataMsg :=
  .readInt fun tickerId =>
  .readInt fun nitems =>
  histRows
    (fun rows =>
      .done { version := version, tickerId := tickerId, rows := rows })
    nitems.toNat

/-- HistoricalData.read: version field first, then the body. -/
def decodeHistoricalData : Decode HistoricalDataMsg :=
  .readInt historicalDataBody

/-- Message shape of the BondContractData decoder; never actually
constructed, since the decode aborts with AttributeError first. -/
structure BondContractDataMsg : Type where
  details : ContractDetails
deriving DecidableEq

/-- BondContractData.read after the version field.  Like
ContractDetails.read it constructs the shadowing ContractDetails decoder
class, so `details.summary.symbol = readStr()` evaluates the read and
then raises AttributeError, aborting the decode after exactly one string
read at every version. -/
def bondContractDataBody (_version : Int) : Decode BondContractDataMsg :=
  .readStr fun _symbol =>
  .fail

/-- BondContractData.read: version field first, then the body. -/
def decodeBondContractData : Decode BondContractDataMsg :=
  .readInt bondContractDataBody

/-- Generated message instance of the ScannerParameters decoder. -/
structure ScannerParametersMsg : Type where
  xml : String
deriving DecidableEq

/-- ScannerParameters.read after the version field: one xml string. -/
def scannerParametersBody (_version : Int) : Decode ScannerParametersMsg :=
  .readStr fun xml =>
  .done { xml := xml }

/-- ScannerParameters.read: version field first, then the body. -/
def decodeScannerParameters : Decode ScannerParametersMsg :=
  .readInt scannerParametersBody

/-- The row shape ScannerData.read is written to build: the rank, a
ContractDetails, and the three trailing strings.  No row is ever
constructed - every iteration aborts with AttributeError - so a
successful ScannerData decode carries only the empty row list. -/
structure ScannerRow : Type where
  rank : Int
  contract : ContractDetails
  distance : String
  benchmark : String
  projection : String
deriving DecidableEq

/-- Generated message instance of the ScannerData decoder. -/
structure ScannerDataMsg : Type where
  tickerId : Int
  rows : List ScannerRow
deriving DecidableEq

/-- The row loop of ScannerData.read: a zero element count skips the
loop and yields the empty row list, but every iteration constructs the
shadowing ContractDetails decoder class, so `contract.summary.symbol =
readStr()` evaluates the read and then raises AttributeError - any
nonzero count aborts the decode after the rank and one string read. -/
def scannerRows (k : List ScannerRow → Decode ScannerDataMsg) :
    Nat → Decode ScannerDataMsg
  | 0 => k []
  | _ + 1 =>
    .readInt fun _rank =>
    .readStr fun _symbol =>
    .fail

/-- ScannerData.read after the version field: tickerId, the element
count, then that many identical row groups. -/
def scannerDataBody (_version : Int) : Decode ScannerDataMsg :=
  .readInt fun tickerId =>
  .readInt fun elementCount =>
  scannerRows
    (fun rows => .done { tickerId := tickerId, rows := rows })
    elementCount.toNat

/-- ScannerData.read: version field first, then the body. -/
def decodeScannerData : Decode ScannerDataMsg :=
  .readInt scannerDataBody

/-- An observable step of a decoder's process lifecycle: a pre-dispatch
listener invocation, a primitive read consuming a token, a post-dispatch
listener invocation carrying the freshly numbered message instance it
receives, or a swallowed-and-logged failure attributed to the listener
at the given position. -/
inductive Event (μ : Type) : Type
  | pre (i : Nat)
  | read (t : Tok)
  | post (i : Nat) (alloc : Nat) (m : μ)
  | logErr (i : Nat)
deriving DecidableEq

/-- Embeds MessageDecoder.preDispatch iterating its listener list from
position `i`.  The body's logging call references the global name `log`,
which is defined nowhere in the module, so every iteration raises
NameError before reaching `listener(msg)`; the per-listener handler
catches it and logs it.  Hence each registered pre-listener yields one
logged error and no `Event.pre` invocation ever occurs. -/
def preDispatchEvents {μ : Type} (i : Nat) : List Bool → List (Event μ)
  | [] => []
  | _ :: rest => Event.logErr i :: preDispatchEvents (i + 1) rest

/-- Embeds MessageDecoder.postDispatch iterating its listener list from
position `i`: each iteration constructs a fresh message instance from the
same keyword values (numbered by the allocation counter `alloc`), invokes
the listener with it, and, when the listener raises (its Bool is true),
catches and logs the failure before moving to the next listener. -/
def postDispatchEvents {μ : Type} (i alloc : Nat) (m : μ) :
    List (μ → Bool) → List (Event μ)
  | [] => []
  | f :: rest =>
    Event.post i alloc m ::
      ((if f m then [Event.logErr i] else []) ++
        postDispatchEvents (i + 1) (alloc + 1) m rest)

/-- Whether an event is the invocation of the post-dispatch listener at
position `i`. -/
def isPostOf {μ : Type} (i : Nat) : Event μ → Bool
  | .post j _ _ => j == i
  | _ => false

/-- Whether an event is a pre-dispatch listener invocation. -/
def isPreEvent {μ : Type} : Event μ → Bool
  | .pre _ => true
  | _ => false

/-- The uniform lifecycle every `read` method of message.py follows:
preDispatch over the registered pre-listeners, the primitive reads of
the decode tree, then postDispatch of the constructed message over the
registered post-listeners.  A failing primitive read raises through the
`read` method (there is no handler around the reads), so the error is
returned unchanged and no post-dispatch occurs; the tokens consumed
before the failure were still read from the stream. -/
def processD {μ : Type} (pre : List Bool) (post : List (μ → Bool))
    (d : Decode μ) (s : List Tok) :
    List (Event μ) × Except ReadErr (List Tok) :=
  match runD d s with
  | .error e =>
    (preDispatchEvents 0 pre ++ (consumed d s).map Event.read, .error e)
  | .ok (m, rest) =>
    (preDispatchEvents 0 pre ++ (consumed d s).map Event.read ++
       postDispatchEvents 0 0 m post, .ok rest)

/-- The size tick kind derived from a price tick kind in TickPrice.read:
bid, ask and last map to their size counterparts, every other price kind
to no derived message. -/
def sizeTickTypeFor (tickType : Int) : Option Int :=
  if tickType = TickType.BID then some TickType.BID_SIZE
  else if tickType = TickType.ASK then some TickType.ASK_SIZE
  else if tickType = TickType.LAST then some TickType.LAST_SIZE
  else none

/-- The outcome of one TickPrice.read call: its own lifecycle events,
the events produced on the cooperating TickSize decoder (`self.sizer`),
the derived size messages dispatched on that decoder (one postDispatch
call each), and the read outcome. -/
structure TickPriceRun : Type where
  events : List (Event TickMsg)
  sizerEvents : List (Event TickMsg)
  derived : List TickMsg
  rest : Except ReadErr (List Tok)

/-- Embeds TickPrice.read in full: preDispatch, the version-gated reads,
postDispatch of the price message, and then - only when version >= 2 and
the price kind maps to a size kind - one preDispatch/postDispatch pair
on the cooperating sizer decoder carrying the derived size message
(tickerId, the mapped size kind, the size just read, canAutoExecute 0). -/
def processTickPrice (pre : List Bool) (post : List (TickMsg → Bool))
    (szPre : List Bool) (szPost : List (TickMsg → Bool)) (s : List Tok) :
    TickPriceRun :=
  match runD tickPriceReads s with
  | .error e =>
    { events := preDispatchEvents 0 pre ++
        (consumed tickPriceReads s).map Event.read,
      sizerEvents := [], derived := [], rest := .error e }
  | .ok ((version, tickerId, tickType, price, size, canAutoExecute), rest) =>
    let own := preDispatchEvents 0 pre ++
      (consumed tickPriceReads s).map Event.read ++
      postDispatchEvents 0 0
        { tickerId := tickerId, field := tickType, value := Val.vF price,
          canAutoExecute := canAutoExecute } post
    if 2 ≤ version then
      match sizeTickTypeFor tickType with
      | some sizeTickType =>
        let dm : TickMsg :=
          { tickerId := tickerId, field := sizeTickType,
            value := Val.vI size, canAutoExecute := 0 }
        { events := own,
          sizerEvents := preDispatchEvents 0 szPre ++
            postDispatchEvents 0 0 dm szPost,
          derived := [dm], rest := .ok rest }
      | none =>
        { events := own, sizerEvents := [], derived := [], rest := .ok rest }
    else
      { events := own, sizerEvents := [], derived := [], rest := .ok rest }

/-- The wire values of one Execution message. -/
structure ExecutionArgs : Type where
  orderId : Int
  symbol : String
  secType : String
  expiry : String
  strike : Rat
  right : String
  exchange : String
  currency : String
  localSymbol : String
  execId : String
  time : String
  acctNumber : String
  exchange2 : String
  side : String
  shares : Int
  price : Rat
  permId : Int
  clientId : Int
  liquidation : Int

/-- The token stream matching version v's exact Execution schema. -/
def encodeExecution (v : Int) (a : ExecutionArgs) : List Tok :=
  [Tok.tint v, Tok.tint a.orderId, Tok.tstr a.symbol, Tok.tstr a.secType,
   Tok.tstr a.expiry, Tok.tfloat a.strike, Tok.tstr a.right,
   Tok.tstr a.exchange, Tok.tstr a.currency, Tok.tstr a.localSymbol,
   Tok.tstr a.execId, Tok.tstr a.time, Tok.tstr a.acctNumber,
   Tok.tstr a.exchange2, Tok.tstr a.side, Tok.tint a.shares,
   Tok.tfloat a.price] ++
  (if 2 ≤ v then [Tok.tint a.permId] else []) ++
  (if 3 ≤ v then [Tok.tint a.clientId] else []) ++
  (if 4 ≤ v then [Tok.tint a.liquidation] else [])

/-- The message the claim expects for a version-v Execution decode:
every wire field literally; the version-gated detail attributes are
present exactly from their thresholds and absent (never set, `none`)
below them, since the details object is the shadowing decoder instance
and carries no defaults. -/
def expectedExecution (v : Int) (a : ExecutionArgs) : ExecutionMsg :=
  { orderId := a.orderId,
    contract := { symbol := a.symbol, secType := a.secType,
                  expiry := a.expiry, strike := a.strike, right := a.right,
                  exchange := a.exchange, currency := a.currency,
                  localSymbol := a.localSymbol },
    details := { orderId := a.orderId, execId := a.execId, time := a.time,
                 acctNumber := a.acctNumber, exchange := a.exchange2,
                 side := a.side, shares := a.shares, price := a.price,
                 permId := if 2 ≤ v then some a.permId else none,
                 clientId := if 3 ≤ v then some a.clientId else none,
                 liquidation := if 4 ≤ v then some a.liquidation else none } }

/-- The wire values of one OrderStatus message. -/
structure OrderStatusArgs : Type where
  orderId : Int
  message : String
  filled : Int
  remaining : Int
  avgFillPrice : Rat
  permId : Int
  parentId : Int
  lastFillPrice : Rat
  clientId : Int

/-- The token stream matching version v's exact OrderStatus schema. -/
def encodeOrderStatus (v : Int) (a : OrderStatusArgs) : List Tok :=
  [Tok.tint v, Tok.tint a.orderId, Tok.tstr a.message, Tok.tint a.filled,
   Tok.tint a.remaining, Tok.tfloat a.avgFillPrice] ++
  (if 2 ≤ v then [Tok.tint a.permId] else []) ++
  (if 3 ≤ v then [Tok.tint a.parentId] else []) ++
  (if 4 ≤ v then [Tok.tfloat a.lastFillPrice] else []) ++
  (if 5 ≤ v then [Tok.tint a.clientId] else [])

/-- The message the claim expects for a version-v OrderStatus decode. -/
def expectedOrderStatus (v : Int) (a : OrderStatusArgs) : OrderStatusMsg :=
  { orderId := a.orderId, message := a.message, filled := a.filled,
    remaining := a.remaining, avgFillPrice := a.avgFillPrice,
    permId := if 2 ≤ v then a.permId else 0,
    parentId := if 3 ≤ v then a.parentId else 0,
    lastFillPrice := if 4 ≤ v then a.lastFillPrice else 0,
    clientId := if 5 ≤ v then a.clientId else 0 }

/-- The wire values of one Portfolio message. -/
structure PortfolioArgs : Type where
  symbol : String
  secType : String
  expiry : String
  strike : Rat
  right : String
  currency : String
  localSymbol : String
  position : Int
  market_price : Rat
  market_value : Rat
  average_cost : Rat
  unrealized_pnl : Rat
  realized_pnl : Rat
  accountName : String

/-- The token stream matching version v's exact Portfolio schema. -/
def encodePortfolio (v : Int) (a : PortfolioArgs) : List Tok :=
  [Tok.tint v, Tok.tstr a.symbol, Tok.tstr a.secType, Tok.tstr a.expiry,
   Tok.tfloat a.strike, Tok.tstr a.right, Tok.tstr a.currency] ++
  (if 2 ≤ v then [Tok.tstr a.localSymbol] else []) ++
  [Tok.tint a.position, Tok.tfloat a.market_price,
   Tok.tfloat a.market_value] ++
  (if 3 ≤ v then [Tok.tfloat a.average_cost, Tok.tfloat a.unrealized_pnl,
                  Tok.tfloat a.realized_pnl] else []) ++
  (if 4 ≤ v then [Tok.tstr a.accountName] else [])

/-- The message the claim expects for a version-v Portfolio decode. -/
def expectedPortfolio (v : Int) (a : PortfolioArgs) : PortfolioMsg :=
  { contract := { symbol := a.symbol, secType := a.secType,
                  expiry := a.expiry, strike := a.strike, right := a.right,
                  currency := a.currency,
                  localSymbol := if 2 ≤ v then a.localSymbol else "" },
    position := a.position, market_price := a.market_price,
    market_value := a.market_value,
    average_cost := if 3 ≤ v then a.average_cost else 0,
    unrealized_pnl := if 3 ≤ v then a.unrealized_pnl else 0,
    realized_pnl := if 3 ≤ v then a.realized_pnl else 0,
    accountName := if 4 ≤ v then a.accountName else "" }

/-- The wire values of one HistoricalData row: hasGaps travels as a
string token. -/
structure HistRowArgs : Type where
  date : String
  openPx : Rat
  high : Rat
  low : Rat
  close : Rat
  volume : Int
  wap : Rat
  hasGaps : String

/-- The eight tokens of one HistoricalData row in wire order. -/
def encodeHistRow (r : HistRowArgs) : List Tok :=
  [Tok.tstr r.date, Tok.tfloat r.openPx, Tok.tfloat r.high,
   Tok.tfloat r.low, Tok.tfloat r.close, Tok.tint r.volume,
   Tok.tfloat r.wap, Tok.tstr r.hasGaps]

/-- The row the claim expects: wire fields literally, hasGaps through
the lowercased comparison with "true". -/
def expectedHistRow (r : HistRowArgs) : HistRow :=
  { date := r.date, «open» := r.openPx, high := r.high, low := r.low,
    close := r.close, volume := r.volume, wap := r.wap,
    hasGaps := pyLower r.hasGaps == "true" }

/-- The wire values of one OpenOrder message: the 0/1 flags travel as
integers; receivedInt is the version-11 integer encoding of
deltaNeutralOrderType, which later versions send as a string. -/
structure OpenOrderArgs : Type where
  orderId : Int
  symbol : String
  secType : String
  expiry : String
  strike : Rat
  right : String
  exchange : String
  currency : String
  localSymbol : String
  action : String
  totalQuantity : Int
  orderType : String
  lmtPrice : Rat
  auxPrice : Rat
  tif : String
  ocaGroup : String
  account : String
  openClose : String
  origin : Int
  orderRef : String
  clientId : Int
  permId : Int
  ignoreRth : Int
  hidden : Int
  discretionaryAmt : Rat
  goodAfterTime : String
  sharesAllocation : String
  faGroup : String
  faMethod : String
  faPercentage : String
  faProfile : String
  goodTillDate : String
  rule80A : String
  percentOffset : Rat
  settlingFirm : String
  shortSaleSlot : Int
  designatedLocation : String
  auctionStrategy : Int
  startingPrice : Rat
  stockRefPrice : Rat
  delta : Rat
  stockRangeLower : Rat
  stockRangeUpper : Rat
  displaySize : Int
  rthOnly : Int
  blockOrder : Int
  sweepToFill : Int
  allOrNone : Int
  minQty : Int
  ocaType : Int
  eTradeOnly : Int
  firmQuoteOnly : Int
  nbboPriceCap : Rat
  parentId : Int
  triggerMethod : Int
  volatility : Rat
  volatilityType : Int
  receivedInt : Int
  deltaNeutralOrderType : String
  deltaNeutralAuxPrice : Rat
  continuousUpdate : Int
  referencePriceType : Int

/-- The token stream matching version v's exact OpenOrder schema,
including the two different version-11 / version-12 shapes of the
deltaNeutralOrderType field. -/
def encodeOpenOrder (v : Int) (a : OpenOrderArgs) : List Tok :=
  [Tok.tint v, Tok.tint a.orderId, Tok.tstr a.symbol, Tok.tstr a.secType,
   Tok.tstr a.expiry, Tok.tfloat a.strike, Tok.tstr a.right,
   Tok.tstr a.exchange, Tok.tstr a.currency] ++
  (if 2 ≤ v then [Tok.tstr a.localSymbol] else []) ++
  [Tok.tstr a.action, Tok.tint a.totalQuantity, Tok.tstr a.orderType,
   Tok.tfloat a.lmtPrice, Tok.tfloat a.auxPrice, Tok.tstr a.tif,
   Tok.tstr a.ocaGroup, Tok.tstr a.account, Tok.tstr a.openClose,
   Tok.tint a.origin, Tok.tstr a.orderRef] ++
  (if 3 ≤ v then [Tok.tint a.clientId] else []) ++
  (if 4 ≤ v then [Tok.tint a.permId, Tok.tint a.ignoreRth,
                  Tok.tint a.hidden, Tok.tfloat a.discretionaryAmt]
   else []) ++
  (if 5 ≤ v then [Tok.tstr a.goodAfterTime] else []) ++
  (if 6 ≤ v then [Tok.tstr a.sharesAllocation] else []) ++
  (if 7 ≤ v then [Tok.tstr a.faGroup, Tok.tstr a.faMethod,
                  Tok.tstr a.faPercentage, Tok.tstr a.faProfile]
   else []) ++
  (if 8 ≤ v then [Tok.tstr a.goodTillDate] else []) ++
  (if 9 ≤ v then [Tok.tstr a.rule80A, Tok.tfloat a.percentOffset,
                  Tok.tstr a.settlingFirm, Tok.tint a.shortSaleSlot,
                  Tok.tstr a.designatedLocation,
                  Tok.tint a.auctionStrategy, Tok.tfloat a.startingPrice,
                  Tok.tfloat a.stockRefPrice, Tok.tfloat a.delta,
                  Tok.tfloat a.stockRangeLower,
                  Tok.tfloat a.stockRangeUpper, Tok.tint a.displaySize,
                  Tok.tint a.rthOnly, Tok.tint a.blockOrder,
                  Tok.tint a.sweepToFill, Tok.tint a.allOrNone,
                  Tok.tint a.minQty, Tok.tint a.ocaType,
                  Tok.tint a.eTradeOnly, Tok.tint a.firmQuoteOnly,
                  Tok.tfloat a.nbboPriceCap]
   else []) ++
  (if 10 ≤ v then [Tok.tint a.parentId, Tok.tint a.triggerMethod]
   else []) ++
  (if 11 ≤ v then
    [Tok.tfloat a.volatility, Tok.tint a.volatilityType] ++
    (if v = 11 then [Tok.tint a.receivedInt]
     else [Tok.tstr a.deltaNeutralOrderType,
           Tok.tfloat a.deltaNeutralAuxPrice]) ++
    [Tok.tint a.continuousUpdate, Tok.tint a.referencePriceType]
   else [])

/-- The message the claim expects for a version-v OpenOrder decode:
every wire field literally (flags through their 0/1 mappings, the
version-11 deltaNeutralOrderType through its NONE/MKT mapping), and
every field introduced at a higher version at its default. -/
def expectedOpenOrder (v : Int) (a : OpenOrderArgs) : OpenOrderMsg :=
  { orderId := a.orderId,
    contract := { symbol := a.symbol, secType := a.secType,
                  expiry := a.expiry, strike := a.strike, right := a.right,
                  exchange := a.exchange, currency := a.currency,
                  localSymbol := if 2 ≤ v then a.localSymbol else "" },
    order := { orderId := a.orderId, action := a.action,
               totalQuantity := a.totalQuantity, orderType := a.orderType,
               lmtPrice := a.lmtPrice, auxPrice := a.auxPrice,
               tif := a.tif, ocaGroup := a.ocaGroup, account := a.account,
               openClose := a.openClose, origin := a.origin,
               orderRef := a.orderRef,
               clientId := if 3 ≤ v then a.clientId else 0,
               permId := if 4 ≤ v then a.permId else 0,
               ignoreRth := if 4 ≤ v then a.ignoreRth == 1 else false,
               hidden := if 4 ≤ v then a.hidden == 1 else false,
               discretionaryAmt := if 4 ≤ v then a.discretionaryAmt else 0,
               goodAfterTime := if 5 ≤ v then a.goodAfterTime else "",
               sharesAllocation := if 6 ≤ v then a.sharesAllocation else "",
               faGroup := if 7 ≤ v then a.faGroup else "",
               faMethod := if 7 ≤ v then a.faMethod else "",
               faPercentage := if 7 ≤ v then a.faPercentage else "",
               faProfile := if 7 ≤ v then a.faProfile else "",
               goodTillDate := if 8 ≤ v then a.goodTillDate else "",
               rule80A := if 9 ≤ v then a.rule80A else "",
               percentOffset := if 9 ≤ v then a.percentOffset else 0,
               settlingFirm := if 9 ≤ v then a.settlingFirm else "",
               shortSaleSlot := if 9 ≤ v then a.shortSaleSlot else 0,
               designatedLocation :=
                 if 9 ≤ v then a.designatedLocation else "",
               auctionStrategy := if 9 ≤ v then a.auctionStrategy else 0,
               startingPrice := if 9 ≤ v then a.startingPrice else 0,
               stockRefPrice := if 9 ≤ v then a.stockRefPrice else 0,
               delta := if 9 ≤ v then a.delta else 0,
               stockRangeLower := if 9 ≤ v then a.stockRangeLower else 0,
               stockRangeUpper := if 9 ≤ v then a.stockRangeUpper else 0,
               displaySize := if 9 ≤ v then a.displaySize else 0,
               rthOnly := if 9 ≤ v then a.rthOnly != 0 else false,
               blockOrder := if 9 ≤ v then a.blockOrder != 0 else false,
               sweepToFill := if 9 ≤ v then a.sweepToFill != 0 else false,
               allOrNone := if 9 ≤ v then a.allOrNone != 0 else false,
               minQty := if 9 ≤ v then a.minQty else 0,
               ocaType := if 9 ≤ v then a.ocaType else 0,
               eTradeOnly := if 9 ≤ v then a.eTradeOnly != 0 else false,
               firmQuoteOnly :=
                 if 9 ≤ v then a.firmQuoteOnly != 0 else false,
               nbboPriceCap := if 9 ≤ v then a.nbboPriceCap else 0,
               parentId := if 10 ≤ v then a.parentId else 0,
               triggerMethod := if 10 ≤ v then a.triggerMethod else 0,
               volatility := if 11 ≤ v then a.volatility else 0,
               volatilityType := if 11 ≤ v then a.volatilityType else 0,
               deltaNeutralOrderType :=
                 if 11 ≤ v then
                   (if v = 11 then
                      (if a.receivedInt = 0 then "NONE" else "MKT")
                    else a.deltaNeutralOrderType)
                 else "",
               deltaNeutralAuxPrice :=
                 if 11 ≤ v then
                   (if v = 11 then 0 else a.deltaNeutralAuxPrice)
                 else 0,
               continuousUpdate := if 11 ≤ v then a.continuousUpdate else 0,
               referencePriceType :=
                 if 11 ≤ v then a.referencePriceType else 0 } }

/-- The version-v read sequence of a decoder body is a strict prefix of
its version-(v+1) read sequence. -/
def opsStrictPrefix {α : Type} (body : Int → Decode α) (v : Int) : Prop :=
  (opsD (body v)).isPrefixOf (opsD (body (v + 1))) = true ∧
  opsD (body v) ≠ opsD (body (v + 1))

/-- The version-v read sequence of a decoder body is a strict
subsequence (same reads, same order, possibly with later-version reads
interleaved) of its version-(v+1) read sequence. -/
def opsStrictSublist {α : Type} (body : Int → Decode α) (v : Int) : Prop :=
  (opsD (body v)).isSublist (opsD (body (v + 1))) = true ∧
  opsD (body v) ≠ opsD (body (v + 1))

/-- Every event produced by preDispatch is a logged error: the listener
invocation is unreachable (the undefined `log` name raises first). -/
theorem mem_preDispatchEvents {μ : Type} (e : Event μ) :
    ∀ (ls : List Bool) (i : Nat),
      e ∈ preDispatchEvents i ls → ∃ j, e = Event.logErr j := by
  intro ls
  induction ls with
  | nil => intro i h; simp [preDispatchEvents] at h
  | cons b rest ih =>
    intro i h
    rcases (by simpa [preDispatchEvents] using h : _ ∨ _) with h1 | h2
    · exact ⟨i, h1⟩
    · exact ih (i + 1) h2

/-- The cons unfolding of postDispatchEvents. -/
theorem postDispatchEvents_cons {μ : Type} (i a : Nat) (m : μ)
    (f : μ → Bool) (rest : List (μ → Bool)) :
    postDispatchEvents i a m (f :: rest) =
      Event.post i a m ::
        ((if f m then [Event.logErr i] else []) ++
          postDispatchEvents (i + 1) (a + 1) m rest) := rfl

/-- Each post-dispatch listener position is invoked exactly once while
the iteration covers it, whether or not any listener fails. -/
theorem countP_isPostOf_postDispatchEvents {μ : Type} (j : Nat) (m : μ) :
    ∀ (ls : List (μ → Bool)) (i a : Nat),
      List.countP (isPostOf j) (postDispatchEvents i a m ls) =
        if i ≤ j ∧ j < i + ls.length then 1 else 0 := by
  intro ls
  induction ls with
  | nil =>
    intro i a
    have hc : ¬(i ≤ j ∧ j < i) := by omega
    simp [postDispatchEvents, hc]
  | cons f rest ih =>
    intro i a
    rw [postDispatchEvents_cons, List.countP_cons, List.countP_append,
        ih (i + 1) (a + 1)]
    have hmid : List.countP (isPostOf j)
        (if f m then [Event.logErr i] else [] : List (Event μ)) = 0 := by
      by_cases hf : f m <;> simp [hf, isPostOf]
    rw [hmid]
    simp only [isPostOf, List.length_cons, beq_iff_eq]
    split_ifs <;> omega

/-- A failure is logged during post-dispatch at position j exactly when
the listener registered there raises on the message. -/
theorem logErr_mem_postDispatchEvents {μ : Type} (j : Nat) (m : μ) :
    ∀ (ls : List (μ → Bool)) (i a : Nat),
      (Event.logErr j ∈ postDispatchEvents i a m ls ↔
        ∃ f, i ≤ j ∧ ls[j - i]? = some f ∧ f m = true) := by
  intro ls
  induction ls with
  | nil =>
    intro i a
    simp [postDispatchEvents]
  | cons f rest ih =>
    intro i a
    rw [postDispatchEvents_cons]
    constructor
    · intro h
      rcases List.mem_cons.mp h with h | h
      · exact absurd h (by simp)
      rcases List.mem_append.mp h with h | h
      · have hf : f m = true ∧ j = i := by
          by_cases hb : f m
          · simp [hb] at h
            simp_all
          · simp [hb] at h
        obtain ⟨hb, hji⟩ := hf
        subst hji
        exact ⟨f, le_refl _, by simp, hb⟩
      · obtain ⟨g, hle, hget, hgm⟩ := (ih (i + 1) (a + 1)).mp h
        refine ⟨g, by omega, ?_, hgm⟩
        have hji : j - i = (j - (i + 1)) + 1 := by omega
        rw [hji]
        simpa using hget
    · rintro ⟨g, hle, hget, hgm⟩
      by_cases hji : j = i
      · subst hji
        have hgf : f = g := by simpa using hget
        subst hgf
        exact List.mem_cons.mpr (Or.inr (List.mem_append.mpr
          (Or.inl (by simp [hgm]))))
      · have hstep : i + 1 ≤ j := by omega
        have hd : j - i = (j - (i + 1)) + 1 := by omega
        rw [hd] at hget
        exact List.mem_cons.mpr (Or.inr (List.mem_append.mpr
          (Or.inr ((ih (i + 1) (a + 1)).mpr
            ⟨g, hstep, by simpa using hget, hgm⟩))))

/-- Every post event in a post-dispatch carries the decoded message and
the allocation number of its position: the instance delivered to
position j is allocation a + (j - i), fresh for that listener. -/
theorem post_mem_postDispatchEvents {μ : Type} (m m' : μ) (j b : Nat) :
    ∀ (ls : List (μ → Bool)) (i a : Nat),
      Event.post j b m' ∈ postDispatchEvents i a m ls →
        m' = m ∧ i ≤ j ∧ j < i + ls.length ∧ b = a + (j - i) := by
  intro ls
  induction ls with
  | nil => intro i a h; simp [postDispatchEvents] at h
  | cons f rest ih =>
    intro i a h
    rw [postDispatchEvents_cons] at h
    rcases List.mem_cons.mp h with h | h
    · have hj : j = i ∧ b = a ∧ m' = m := by
        simpa [Event.post.injEq] using h
      obtain ⟨hj, hb, hm⟩ := hj
      refine ⟨hm, by omega, ?_, by omega⟩
      simp only [List.length_cons]
      omega
    rcases List.mem_append.mp h with h | h
    · exact absurd h (by by_cases hf : f m <;> simp [hf])
    · obtain ⟨hm, hle, hlt, hb⟩ := ih (i + 1) (a + 1) h
      refine ⟨hm, by omega, ?_, by omega⟩
      simp only [List.length_cons]
      omega

/-- C3: for every decoder with registered post-dispatch subscribers, a
subscriber that raises during notification does not prevent any other
subscriber from being invoked exactly once for that message; the failure
is logged and swallowed at the subscriber-invocation boundary (the read
outcome is the same as with no subscribers at all), and a failure of the
decode step itself is not swallowed but propagates. -/
theorem c3_subscriber_isolation {μ : Type} (post : List (μ → Bool)) (m : μ)
    (i : Nat) (hi : i < post.length) :
    List.countP (isPostOf i) (postDispatchEvents 0 0 m post) = 1 ∧
    (Event.logErr i ∈ postDispatchEvents 0 0 m post ↔
      ∃ f, post[i]? = some f ∧ f m = true) ∧
    (∀ (pre : List Bool) (d : Decode μ) (s : List Tok),
      (processD pre post d s).2 = (processD pre [] d s).2) ∧
    (∀ (pre : List Bool) (d : Decode μ) (s : List Tok) (e : ReadErr),
      runD d s = .error e → (processD pre post d s).2 = .error e) := by
  refine ⟨?_, ?_, ?_, ?_⟩
  · rw [countP_isPostOf_postDispatchEvents i m post 0 0]
    rw [if_pos ⟨Nat.zero_le i, by omega⟩]
  · have h := logErr_mem_postDispatchEvents i m post 0 0
    simpa using h
  · intro pre d s
    cases h : runD d s with
    | error e => simp [processD, h]
    | ok p => simp [processD, h]
  · intro pre d s e h
    simp [processD, h]

/-- Witness for C3 at the spec's concrete scenario: three registered
subscribers of which the second raises; each of the three is invoked
exactly once and the second's failure is logged. -/
theorem c3_witness :
    List.countP (isPostOf 0) (postDispatchEvents 0 0 (0 : Nat)
      [fun _ => false, fun _ => true, fun _ => false]) = 1 ∧
    List.countP (isPostOf 1) (postDispatchEvents 0 0 (0 : Nat)
      [fun _ => false, fun _ => true, fun _ => false]) = 1 ∧
    List.countP (isPostOf 2) (postDispatchEvents 0 0 (0 : Nat)
      [fun _ => false, fun _ => true, fun _ => false]) = 1 ∧
    Event.logErr 1 ∈ postDispatchEvents 0 0 (0 : Nat)
      [fun _ => false, fun _ => true, fun _ => false] :=
  ⟨(c3_subscriber_isolation
      [fun _ => false, fun _ => true, fun _ => false] 0 0 (by decide)).1,
   (c3_subscriber_isolation
      [fun _ => false, fun _ => true, fun _ => false] 0 1 (by decide)).1,
   (c3_subscriber_isolation
      [fun _ => false, fun _ => true, fun _ => false] 0 2 (by decide)).1,
   (c3_subscriber_isolation
      [fun _ => false, fun _ => true, fun _ => false] 0 1
      (by decide)).2.1.mpr ⟨fun _ => true, rfl, rfl⟩⟩

/-- C4: a failing primitive read propagates its error unchanged out of
the decoder's read call, aborting the in-progress decode, and no message
is delivered to any post-dispatch subscriber: the event trace contains
no post event at all. -/
theorem c4_read_failure_propagates {μ : Type} (pre : List Bool)
    (post : List (μ → Bool)) (d : Decode μ) (s : List Tok) (e : ReadErr)
    (h : runD d s = .error e) :
    processD pre post d s =
      (preDispatchEvents 0 pre ++ (consumed d s).map Event.read,
        .error e) ∧
    ∀ (i a : Nat) (m : μ), Event.post i a m ∉ (processD pre post d s).1 := by
  have hp : processD pre post d s =
      (preDispatchEvents 0 pre ++ (consumed d s).map Event.read,
        .error e) := by
    simp [processD, h]
  refine ⟨hp, ?_⟩
  intro i a m hmem
  rw [hp] at hmem
  rcases List.mem_append.mp hmem with hm | hm
  · obtain ⟨j, hj⟩ := mem_preDispatchEvents _ pre 0 hm
    simp at hj
  · obtain ⟨t, _, ht⟩ := List.mem_map.mp hm
    simp at ht

/-- Witness for C4: an AccountValue stream truncated after two tokens
propagates StreamTruncated and dispatches nothing. -/
theorem c4_witness :
    processD ([] : List Bool) ([] : List (AccountMsg → Bool))
      decodeAccountValue [Tok.tint 2, Tok.tstr "a"] =
      (preDispatchEvents 0 [] ++
        (consumed decodeAccountValue [Tok.tint 2, Tok.tstr "a"]).map
          Event.read,
        .error .truncated) :=
  (c4_read_failure_propagates [] [] decodeAccountValue
    [Tok.tint 2, Tok.tstr "a"] ReadErr.truncated rfl).1

/-- C9 fails on the code: preDispatch's logging call references the
undefined global name `log`, so with one registered pre-dispatch
listener the lifecycle trace contains a logged error and zero
pre-dispatch notifications - the listener is never invoked - while the
decode and the post-dispatch notification still proceed normally. -/
theorem c9_pre_dispatch_never_notifies :
    (processD [false] [fun _ => false] decodeAccountValue
        [Tok.tint 1, Tok.tstr "k", Tok.tstr "v", Tok.tstr "c"]).1 =
      [Event.logErr 0, Event.read (Tok.tint 1), Event.read (Tok.tstr "k"),
       Event.read (Tok.tstr "v"), Event.read (Tok.tstr "c"),
       Event.post 0 0 { key := "k", value := "v", currency := "c",
                        accountName := "" }] ∧
    List.countP isPreEvent
      (processD [false] [fun _ => false] decodeAccountValue
        [Tok.tint 1, Tok.tstr "k", Tok.tstr "v", Tok.tstr "c"]).1 = 0 ∧
    (processD [false] [fun _ => false] decodeAccountValue
        [Tok.tint 1, Tok.tstr "k", Tok.tstr "v", Tok.tstr "c"]).2 =
      .ok [] :=
  ⟨rfl, rfl, rfl⟩

/-- C10: a successful post-dispatch hands every listener its own freshly
constructed message instance built from the same decoded field values:
post events at two different listener positions always carry the decoded
message but distinct allocation numbers. -/
theorem c10_fresh_message_instances {μ : Type} (post : List (μ → Bool))
    (m m1 m2 : μ) (i j a1 a2 : Nat)
    (h1 : Event.post i a1 m1 ∈ postDispatchEvents 0 0 m post)
    (h2 : Event.post j a2 m2 ∈ postDispatchEvents 0 0 m post)
    (hij : i ≠ j) :
    m1 = m ∧ m2 = m ∧ a1 ≠ a2 := by
  obtain ⟨e1, _, _, b1⟩ := post_mem_postDispatchEvents m m1 i a1 post 0 0 h1
  obtain ⟨e2, _, _, b2⟩ := post_mem_postDispatchEvents m m2 j a2 post 0 0 h2
  exact ⟨e1, e2, by omega⟩

/-- Witness for C10: two registered listeners receive instance 0 and
instance 1 of the same decoded message value. -/
theorem c10_witness :
    (0 : Nat) = 0 ∧ (0 : Nat) = 0 ∧ (0 : Nat) ≠ 1 :=
  c10_fresh_message_instances
    [fun _ => false, fun _ => false] 0 0 0 0 1 0 1
    (by decide) (by decide) (by decide)

/-- C5: a TickPrice decode at version >= 2 with price kind bid, ask or
last additionally dispatches exactly one derived size message on the
cooperating TickSize decoder, carrying the mapped size kind and the
decoded size value (and canAutoExecute 0); any other price kind
dispatches no derived message.  The sizer's lifecycle events are exactly
one preDispatch/postDispatch pair per derived message, and the decode
consumes exactly the version-v schema. -/
theorem c5_tickPrice_derived_size
    (pre szPre : List Bool) (post szPost : List (TickMsg → Bool))
    (v tid tt : Int) (p : Rat) (sz ca : Int) (rest : List Tok)
    (hv : 2 ≤ v) :
    (processTickPrice pre post szPre szPost
        ([Tok.tint v, Tok.tint tid, Tok.tint tt, Tok.tfloat p,
          Tok.tint sz] ++
          (if 3 ≤ v then [Tok.tint ca] else []) ++ rest)).derived =
      (if tt = TickType.BID then
        [{ tickerId := tid, field := TickType.BID_SIZE, value := Val.vI sz,
           canAutoExecute := 0 }]
      else if tt = TickType.ASK then
        [{ tickerId := tid, field := TickType.ASK_SIZE, value := Val.vI sz,
           canAutoExecute := 0 }]
      else if tt = TickType.LAST then
        [{ tickerId := tid, field := TickType.LAST_SIZE, value := Val.vI sz,
           canAutoExecute := 0 }]
      else []) ∧
    (processTickPrice pre post szPre szPost
        ([Tok.tint v, Tok.tint tid, Tok.tint tt, Tok.tfloat p,
          Tok.tint sz] ++
          (if 3 ≤ v then [Tok.tint ca] else []) ++ rest)).sizerEvents =
      ((processTickPrice pre post szPre szPost
        ([Tok.tint v, Tok.tint tid, Tok.tint tt, Tok.tfloat p,
          Tok.tint sz] ++
          (if 3 ≤ v then [Tok.tint ca] else []) ++ rest)).derived).flatMap
        (fun dm => preDispatchEvents 0 szPre ++
          postDispatchEvents 0 0 dm szPost) ∧
    (processTickPrice pre post szPre szPost
        ([Tok.tint v, Tok.tint tid, Tok.tint tt, Tok.tfloat p,
          Tok.tint sz] ++
          (if 3 ≤ v then [Tok.tint ca] else []) ++ rest)).rest =
      .ok rest := by
  refine ⟨?_, ?_, ?_⟩ <;>
    (by_cases h3 : 3 ≤ v <;>
      simp [processTickPrice, tickPriceReads, readIntIf, runD, hv, h3,
            sizeTickTypeFor] <;>
      split_ifs <;>
      simp_all)

/-- Witness for C5 at version 2: a bid-kind price tick yields exactly
one derived bid-size message carrying the decoded size, and an unmapped
price kind (6) yields none. -/
theorem c5_witness :
    (processTickPrice [] [] [] []
        [Tok.tint 2, Tok.tint 7, Tok.tint TickType.BID, Tok.tfloat 5,
         Tok.tint 42]).derived =
      [{ tickerId := 7, field := TickType.BID_SIZE, value := Val.vI 42,
         canAutoExecute := 0 }] ∧
    (processTickPrice [] [] [] []
        [Tok.tint 2, Tok.tint 7, Tok.tint 6, Tok.tfloat 5,
         Tok.tint 42]).derived = [] := by
  constructor
  · have h := (c5_tickPrice_derived_size [] [] [] [] 2 7 TickType.BID 5 42 0
      [] (by decide)).1
    simpa [TickType.BID, TickType.ASK, TickType.LAST, TickType.BID_SIZE]
      using h
  · have h := (c5_tickPrice_derived_size [] [] [] [] 2 7 6 5 42 0
      [] (by decide)).1
    simpa [TickType.BID, TickType.ASK, TickType.LAST] using h

/-- C6: TickOptionComputation normalizes an implied volatility strictly
below zero, and a delta whose absolute value strictly exceeds 1, to the
empty-string "unavailable" sentinel; every other read value passes
through numerically unchanged. -/
theorem c6_tickOption_sentinels (v tid tt : Int) (iv d : Rat)
    (rest : List Tok) :
    runD decodeTickOptionComputation
      ([Tok.tint v, Tok.tint tid, Tok.tint tt, Tok.tfloat iv,
        Tok.tfloat d] ++ rest) =
      .ok ({ tickerId := tid, field := tt,
             impliedVol := if iv < 0 then Val.vS "" else Val.vF iv,
             delta := if 1 < |d| then Val.vS "" else Val.vF d }, rest) :=
  rfl

/-- Examples for C6 from the spec: implied volatility -1/2 and deltas
3/2 and -3/2 become the sentinel; delta 3/10 passes through. -/
theorem c6_examples :
    runD decodeTickOptionComputation
      [Tok.tint 1, Tok.tint 7, Tok.tint 0, Tok.tfloat (-(1/2) : Rat),
       Tok.tfloat ((3/10) : Rat)] =
      .ok ({ tickerId := 7, field := 0, impliedVol := Val.vS "",
             delta := Val.vF ((3/10) : Rat) }, []) ∧
    runD decodeTickOptionComputation
      [Tok.tint 1, Tok.tint 7, Tok.tint 0, Tok.tfloat ((1/4) : Rat),
       Tok.tfloat ((3/2) : Rat)] =
      .ok ({ tickerId := 7, field := 0, impliedVol := Val.vF ((1/4) : Rat),
             delta := Val.vS "" }, []) ∧
    runD decodeTickOptionComputation
      [Tok.tint 1, Tok.tint 7, Tok.tint 0, Tok.tfloat ((1/4) : Rat),
       Tok.tfloat (-(3/2) : Rat)] =
      .ok ({ tickerId := 7, field := 0, impliedVol := Val.vF ((1/4) : Rat),
             delta := Val.vS "" }, []) := by
  refine ⟨?_, ?_, ?_⟩
  · norm_num [runD, decodeTickOptionComputation, tickOptionComputationBody]
    intro h
    rw [abs_of_nonneg (by norm_num : (0 : Rat) ≤ 3 / 10)] at h
    norm_num at h
  · norm_num [runD, decodeTickOptionComputation, tickOptionComputationBody]
    intro h
    rw [abs_of_nonneg (by norm_num : (0 : Rat) ≤ 3 / 2)] at h
    norm_num at h
  · norm_num [runD, decodeTickOptionComputation, tickOptionComputationBody]
    intro h
    rw [abs_of_nonneg (by norm_num : (0 : Rat) ≤ 3 / 2)] at h
    norm_num at h

/-- C7: Error decodes two genuinely different wire shapes: below version
2 exactly one string token is consumed and both numeric fields are
absent (None); at version 2 and above an id and a code are read before
the message text and carried in the message. -/
theorem c7_error_two_wire_shapes (v : Int) :
    (v < 2 → ∀ (m : String) (rest : List Tok),
      runD decodeError ([Tok.tint v, Tok.tstr m] ++ rest) =
        .ok ({ error_id := none, error_code := none, error_msg := m },
          rest)) ∧
    (2 ≤ v → ∀ (i c : Int) (m : String) (rest : List Tok),
      runD decodeError
          ([Tok.tint v, Tok.tint i, Tok.tint c, Tok.tstr m] ++ rest) =
        .ok ({ error_id := some i, error_code := some c, error_msg := m },
          rest)) := by
  constructor
  · intro h m rest
    simp [decodeError, runD, errorBody, if_pos h]
  · intro h i c m rest
    have h2 : ¬v < 2 := by omega
    simp [decodeError, runD, errorBody, h2]

/-- Witness for C7 at the spec's examples: version 1 with body "timeout"
and version 2 with body (7, 504, "timeout"). -/
theorem c7_witness :
    runD decodeError [Tok.tint 1, Tok.tstr "timeout"] =
      .ok ({ error_id := none, error_code := none,
             error_msg := "timeout" }, []) ∧
    runD decodeError [Tok.tint 2, Tok.tint 7, Tok.tint 504,
        Tok.tstr "timeout"] =
      .ok ({ error_id := some 7, error_code := some 504,
             error_msg := "timeout" }, []) := by
  constructor
  · have h := (c7_error_two_wire_shapes 1).1 (by decide) "timeout" []
    simpa using h
  · have h := (c7_error_two_wire_shapes 2).2 (by decide) 7 504 "timeout" []
    simpa using h

/-- C8 fails on the code: the hasGaps token is lowercased before the
comparison with "true", so the token "True" - which is not the literal
"true" the claim requires - still decodes to hasGaps = true. -/
theorem c8_counterexample_hasGaps_True :
    runD decodeHistoricalData
      [Tok.tint 1, Tok.tint 9, Tok.tint 1, Tok.tstr "d", Tok.tfloat 1,
       Tok.tfloat 2, Tok.tfloat 0, Tok.tfloat 1, Tok.tint 5,
       Tok.tfloat 1, Tok.tstr "True"] =
      .ok ({ version := 1, tickerId := 9,
             rows := [{ date := "d", «open» := 1, high := 2, low := 0,
                        close := 1, volume := 5, wap := 1,
                        hasGaps := true }] }, []) ∧
    "True" ≠ "true" :=
  ⟨rfl, by decide⟩

/-- C8 amended: the hasGaps mapping is case-insensitive - the row's
hasGaps field is true exactly when the lowercased token equals "true";
a HistoricalData row otherwise decodes its seven other fields
literally. -/
theorem c8_amended_hasGaps_case_insensitive (v tid : Int)
    (r : HistRowArgs) (rest : List Tok) :
    runD decodeHistoricalData
      (Tok.tint v :: Tok.tint tid :: Tok.tint 1 ::
        (encodeHistRow r ++ rest)) =
      .ok ({ version := v, tickerId := tid,
             rows := [expectedHistRow r] }, rest) ∧
    (expectedHistRow r).hasGaps = (pyLower r.hasGaps == "true") :=
  ⟨rfl, rfl⟩

/-- C2 fails on the code in two ways.  Error switches wire shapes at
version 2: version 1 reads only the message string while version 2 reads
id, code, then the string, so the version-1 read sequence is not a
prefix of the version-2 sequence.  Portfolio inserts localSymbol
mid-message at version 2, so its version-1 reads are not a prefix
either.  And OpenOrder gates the deltaNeutralOrderType encoding with an
equality test (version == 11, an integer) against version >= 12 (a
string and a float), so the version-11 reads are not even a subsequence
of the version-12 reads. -/
theorem c2_counterexample_not_prefix :
    opsD (errorBody 1) = [ReadOp.rstr] ∧
    opsD (errorBody 2) = [ReadOp.rint, ReadOp.rint, ReadOp.rstr] ∧
    (opsD (errorBody 1)).isPrefixOf (opsD (errorBody 2)) = false ∧
    (opsD (portfolioBody 1)).isPrefixOf (opsD (portfolioBody 2)) = false ∧
    (opsD (openOrderBody 11)).isSublist (opsD (openOrderBody 12)) =
      false := by
  refine ⟨?_, ?_, ?_, ?_, ?_⟩ <;> decide

/-- C2 amended: for every message kind whose performed reads are
version-gated and every pair of consecutive supported versions, the
version-v read sequence is a strict subsequence, in the same order, of
the version-(v+1) read sequence - except OpenOrder at the 11-to-12
boundary, whose equality-gated version-11 integer encoding is replaced
rather than extended.  The stronger strict-prefix property holds at
every such pair except the three where a field is inserted mid-message
or the wire shape changes: Error 1-to-2, Portfolio 1-to-2 and OpenOrder
1-to-2 (localSymbol is inserted before later fields at version 2).
ContractDetails is absent from both lists: its decode aborts with
AttributeError after one string read at every version (decoder-class
shadowing), so its performed reads never vary with the version and its
version-2 priceMagnifier read is unreachable. -/
theorem c2_amended_version_monotonicity :
    (opsStrictSublist accountValueBody 1 ∧
     opsStrictSublist errorBody 1 ∧
     opsStrictSublist executionBody 1 ∧ opsStrictSublist executionBody 2 ∧
     opsStrictSublist executionBody 3 ∧
     opsStrictSublist orderStatusBody 1 ∧
     opsStrictSublist orderStatusBody 2 ∧
     opsStrictSublist orderStatusBody 3 ∧
     opsStrictSublist orderStatusBody 4 ∧
     opsStrictSublist portfolioBody 1 ∧ opsStrictSublist portfolioBody 2 ∧
     opsStrictSublist portfolioBody 3 ∧
     opsStrictSublist tickPriceBody 1 ∧ opsStrictSublist tickPriceBody 2 ∧
     opsStrictSublist openOrderBody 1 ∧ opsStrictSublist openOrderBody 2 ∧
     opsStrictSublist openOrderBody 3 ∧ opsStrictSublist openOrderBody 4 ∧
     opsStrictSublist openOrderBody 5 ∧ opsStrictSublist openOrderBody 6 ∧
     opsStrictSublist openOrderBody 7 ∧ opsStrictSublist openOrderBody 8 ∧
     opsStrictSublist openOrderBody 9 ∧
     opsStrictSublist openOrderBody 10) ∧
    (opsStrictPrefix accountValueBody 1 ∧
     opsStrictPrefix executionBody 1 ∧ opsStrictPrefix executionBody 2 ∧
     opsStrictPrefix executionBody 3 ∧
     opsStrictPrefix orderStatusBody 1 ∧ opsStrictPrefix orderStatusBody 2 ∧
     opsStrictPrefix orderStatusBody 3 ∧ opsStrictPrefix orderStatusBody 4 ∧
     opsStrictPrefix portfolioBody 2 ∧ opsStrictPrefix portfolioBody 3 ∧
     opsStrictPrefix tickPriceBody 1 ∧ opsStrictPrefix tickPriceBody 2 ∧
     opsStrictPrefix openOrderBody 2 ∧ opsStrictPrefix openOrderBody 3 ∧
     opsStrictPrefix openOrderBody 4 ∧ opsStrictPrefix openOrderBody 5 ∧
     opsStrictPrefix openOrderBody 6 ∧ opsStrictPrefix openOrderBody 7 ∧
     opsStrictPrefix openOrderBody 8 ∧ opsStrictPrefix openOrderBody 9 ∧
     opsStrictPrefix openOrderBody 10) := by
  constructor
  · refine ⟨?_, ?_, ?_, ?_, ?_, ?_, ?_, ?_, ?_, ?_, ?_, ?_, ?_, ?_, ?_,
      ?_, ?_, ?_, ?_, ?_, ?_, ?_, ?_, ?_⟩ <;>
      exact ⟨by decide, by decide⟩
  · refine ⟨?_, ?_, ?_, ?_, ?_, ?_, ?_, ?_, ?_, ?_, ?_, ?_, ?_, ?_, ?_,
      ?_, ?_, ?_, ?_, ?_, ?_⟩ <;>
      exact ⟨by decide, by decide⟩

/-- C1 fails on the code as stated: TickOptionComputation does not carry
the literal wire value into the message when the sentinel normalization
fires - an implied volatility of -1/2 on the wire decodes to the
empty-string sentinel, not to -1/2. -/
theorem c1_counterexample_sentinel :
    runD decodeTickOptionComputation
      [Tok.tint 1, Tok.tint 7, Tok.tint 0, Tok.tfloat (-(1 / 2) : Rat),
       Tok.tfloat ((3 / 10) : Rat)] =
      .ok ({ tickerId := 7, field := 0, impliedVol := Val.vS "",
             delta := Val.vF ((3 / 10) : Rat) }, []) ∧
    Val.vS "" ≠ Val.vF (-(1 / 2) : Rat) := by
  constructor
  · norm_num [runD, decodeTickOptionComputation, tickOptionComputationBody]
    intro h
    rw [abs_of_nonneg (by norm_num : (0 : Rat) ≤ 3 / 10)] at h
    norm_num at h
  · simp

set_option maxHeartbeats 2000000 in
/-- C1 amended: for every message kind whose decode can complete and
every supported version v, decoding a hand-built token stream matching
version v's exact field schema consumes exactly that schema and
produces a message in which every wire field appears literally - except
where the decoder applies its documented conversion (the
TickOptionComputation unavailability sentinels, the
0/1-integer-to-boolean flag mappings, the lowercased hasGaps
comparison, and OpenOrder version 11's integer-coded
deltaNeutralOrderType) - and every field introduced only at versions
greater than v equals its documented default (empty string, zero,
zero-valued numeric, false for booleans, and None for Error's id and
code below version 2).  Three decodes can never complete: because the
decoder classes ContractDetails and Execution shadow the imported
ib.types value objects, ContractDetails and BondContractData abort with
AttributeError after the version and one string read at every version,
and ScannerData does the same inside its row loop for any nonzero row
count (a zero count succeeds with an empty row list).  And Execution's
message leaves its version-gated detail attributes genuinely unset
(absent, not defaulted) below their thresholds, since they are written
onto the shadowing decoder instance. -/
theorem c1_amended_schema_roundtrip :
    (∀ (k v c : String) (rest : List Tok),
      runD decodeAccountValue
        ([Tok.tint 1, Tok.tstr k, Tok.tstr v, Tok.tstr c] ++ rest) =
        .ok ({ key := k, value := v, currency := c, accountName := "" },
          rest)) ∧
    (∀ (k v c a : String) (rest : List Tok),
      runD decodeAccountValue
        ([Tok.tint 2, Tok.tstr k, Tok.tstr v, Tok.tstr c, Tok.tstr a] ++
          rest) =
        .ok ({ key := k, value := v, currency := c, accountName := a },
          rest)) ∧
    (∀ (v : Int) (ts : String) (rest : List Tok),
      runD decodeAccountTime ([Tok.tint v, Tok.tstr ts] ++ rest) =
        .ok ({ key := "TimeStamp", value := ts, currency := "",
               accountName := "" }, rest)) ∧
    (∀ (v : Int) (symbol : String) (rest : List Tok),
      runD decodeContractDetails ([Tok.tint v, Tok.tstr symbol] ++ rest) =
        .error .attrError ∧
      consumed decodeContractDetails
          ([Tok.tint v, Tok.tstr symbol] ++ rest) =
        [Tok.tint v, Tok.tstr symbol]) ∧
    (∀ (m : String) (rest : List Tok),
      runD decodeError ([Tok.tint 1, Tok.tstr m] ++ rest) =
        .ok ({ error_id := none, error_code := none, error_msg := m },
          rest)) ∧
    (∀ (i c : Int) (m : String) (rest : List Tok),
      runD decodeError
          ([Tok.tint 2, Tok.tint i, Tok.tint c, Tok.tstr m] ++ rest) =
        .ok ({ error_id := some i, error_code := some c, error_msg := m },
          rest)) ∧
    (∀ (a : ExecutionArgs) (rest : List Tok),
      runD decodeExecution (encodeExecution 1 a ++ rest) =
        .ok (expectedExecution 1 a, rest)) ∧
    (∀ (a : ExecutionArgs) (rest : List Tok),
      runD decodeExecution (encodeExecution 2 a ++ rest) =
        .ok (expectedExecution 2 a, rest)) ∧
    (∀ (a : ExecutionArgs) (rest : List Tok),
      runD decodeExecution (encodeExecution 3 a ++ rest) =
        .ok (expectedExecution 3 a, rest)) ∧
    (∀ (a : ExecutionArgs) (rest : List Tok),
      runD decodeExecution (encodeExecution 4 a ++ rest) =
        .ok (expectedExecution 4 a, rest)) ∧
    (∀ (v : Int) (accts : String) (rest : List Tok),
      runD decodeManagedAccounts ([Tok.tint v, Tok.tstr accts] ++ rest) =
        .ok ({ accounts := accts }, rest)) ∧
    (∀ (v tid pos op side : Int) (price : Rat) (size : Int)
        (rest : List Tok),
      runD decodeMarketDepth
          ([Tok.tint v, Tok.tint tid, Tok.tint pos, Tok.tint op,
            Tok.tint side, Tok.tfloat price, Tok.tint size] ++ rest) =
        .ok ({ tickerId := tid, position := pos, operation := op,
               side := side, price := price, size := size }, rest)) ∧
    (∀ (v tid pos : Int) (mm : String) (op side : Int) (price : Rat)
        (size : Int) (rest : List Tok),
      runD decodeMarketDepthLevel2
          ([Tok.tint v, Tok.tint tid, Tok.tint pos, Tok.tstr mm,
            Tok.tint op, Tok.tint side, Tok.tfloat price,
            Tok.tint size] ++ rest) =
        .ok ({ tickerId := tid, position := pos, market_maker := mm,
               operation := op, side := side, price := price,
               size := size }, rest)) ∧
    (∀ (v nid : Int) (rest : List Tok),
      runD decodeNextId ([Tok.tint v, Tok.tint nid] ++ rest) =
        .ok ({ nextValidId := nid }, rest)) ∧
    (∀ (a : OpenOrderArgs) (rest : List Tok),
      runD decodeOpenOrder (encodeOpenOrder 1 a ++ rest) =
        .ok (expectedOpenOrder 1 a, rest)) ∧
    (∀ (a : OpenOrderArgs) (rest : List Tok),
      runD decodeOpenOrder (encodeOpenOrder 2 a ++ rest) =
        .ok (expectedOpenOrder 2 a, rest)) ∧
    (∀ (a : OpenOrderArgs) (rest : List Tok),
      runD decodeOpenOrder (encodeOpenOrder 3 a ++ rest) =
        .ok (expectedOpenOrder 3 a, rest)) ∧
    (∀ (a : OpenOrderArgs) (rest : List Tok),
      runD decodeOpenOrder (encodeOpenOrder 4 a ++ rest) =
        .ok (expectedOpenOrder 4 a, rest)) ∧
    (∀ (a : OpenOrderArgs) (rest : List Tok),
      runD decodeOpenOrder (encodeOpenOrder 5 a ++ rest) =
        .ok (expectedOpenOrder 5 a, rest)) ∧
    (∀ (a : OpenOrderArgs) (rest : List Tok),
      runD decodeOpenOrder (encodeOpenOrder 6 a ++ rest) =
        .ok (expectedOpenOrder 6 a, rest)) ∧
    (∀ (a : OpenOrderArgs) (rest : List Tok),
      runD decodeOpenOrder (encodeOpenOrder 7 a ++ rest) =
        .ok (expectedOpenOrder 7 a, rest)) ∧
    (∀ (a : OpenOrderArgs) (rest : List Tok),
      runD decodeOpenOrder (encodeOpenOrder 8 a ++ rest) =
        .ok (expectedOpenOrder 8 a, rest)) ∧
    (∀ (a : OpenOrderArgs) (rest : List Tok),
      runD decodeOpenOrder (encodeOpenOrder 9 a ++ rest) =
        .ok (expectedOpenOrder 9 a, rest)) ∧
    (∀ (a : OpenOrderArgs) (rest : List Tok),
      runD decodeOpenOrder (encodeOpenOrder 10 a ++ rest) =
        .ok (expectedOpenOrder 10 a, rest)) ∧
    (∀ (a : OpenOrderArgs) (rest : List Tok),
      runD decodeOpenOrder (encodeOpenOrder 11 a ++ rest) =
        .ok (expectedOpenOrder 11 a, rest)) ∧
    (∀ (a : OpenOrderArgs) (rest : List Tok),
      runD decodeOpenOrder (encodeOpenOrder 12 a ++ rest) =
        .ok (expectedOpenOrder 12 a, rest)) ∧
    (∀ (a : OrderStatusArgs) (rest : List Tok),
      runD decodeOrderStatus (encodeOrderStatus 1 a ++ rest) =
        .ok (expectedOrderStatus 1 a, rest)) ∧
    (∀ (a : OrderStatusArgs) (rest : List Tok),
      runD decodeOrderStatus (encodeOrderStatus 2 a ++ rest) =
        .ok (expectedOrderStatus 2 a, rest)) ∧
    (∀ (a : OrderStatusArgs) (rest : List Tok),
      runD decodeOrderStatus (encodeOrderStatus 3 a ++ rest) =
        .ok (expectedOrderStatus 3 a, rest)) ∧
    (∀ (a : OrderStatusArgs) (rest : List Tok),
      runD decodeOrderStatus (encodeOrderStatus 4 a ++ rest) =
        .ok (expectedOrderStatus 4 a, rest)) ∧
    (∀ (a : OrderStatusArgs) (rest : List Tok),
      runD decodeOrderStatus (encodeOrderStatus 5 a ++ rest) =
        .ok (expectedOrderStatus 5 a, rest)) ∧
    (∀ (a : PortfolioArgs) (rest : List Tok),
      runD decodePortfolio (encodePortfolio 1 a ++ rest) =
        .ok (expectedPortfolio 1 a, rest)) ∧
    (∀ (a : PortfolioArgs) (rest : List Tok),
      runD decodePortfolio (encodePortfolio 2 a ++ rest) =
        .ok (expectedPortfolio 2 a, rest)) ∧
    (∀ (a : PortfolioArgs) (rest : List Tok),
      runD decodePortfolio (encodePortfolio 3 a ++ rest) =
        .ok (expectedPortfolio 3 a, rest)) ∧
    (∀ (a : PortfolioArgs) (rest : List Tok),
      runD decodePortfolio (encodePortfolio 4 a ++ rest) =
        .ok (expectedPortfolio 4 a, rest)) ∧
    (∀ (tid tt : Int) (p : Rat) (rest : List Tok),
      runD decodeTickPrice
          ([Tok.tint 1, Tok.tint tid, Tok.tint tt, Tok.tfloat p] ++
            rest) =
        .ok ({ tickerId := tid, field := tt, value := Val.vF p,
               canAutoExecute := 0 }, rest)) ∧
    (∀ (tid tt : Int) (p : Rat) (sz : Int) (rest : List Tok),
      runD decodeTickPrice
          ([Tok.tint 2, Tok.tint tid, Tok.tint tt, Tok.tfloat p,
            Tok.tint sz] ++ rest) =
        .ok ({ tickerId := tid, field := tt, value := Val.vF p,
               canAutoExecute := 0 }, rest)) ∧
    (∀ (tid tt : Int) (p : Rat) (sz ca : Int) (rest : List Tok),
      runD decodeTickPrice
          ([Tok.tint 3, Tok.tint tid, Tok.tint tt, Tok.tfloat p,
            Tok.tint sz, Tok.tint ca] ++ rest) =
        .ok ({ tickerId := tid, field := tt, value := Val.vF p,
               canAutoExecute := ca }, rest)) ∧
    (∀ (v tid tt sz : Int) (rest : List Tok),
      runD decodeTickSize
          ([Tok.tint v, Tok.tint tid, Tok.tint tt, Tok.tint sz] ++
            rest) =
        .ok ({ tickerId := tid, field := tt, value := Val.vI sz,
               canAutoExecute := 0 }, rest)) ∧
    (∀ (v tid tt : Int) (iv d : Rat) (rest : List Tok),
      runD decodeTickOptionComputation
          ([Tok.tint v, Tok.tint tid, Tok.tint tt, Tok.tfloat iv,
            Tok.tfloat d] ++ rest) =
        .ok ({ tickerId := tid, field := tt,
               impliedVol := if iv < 0 then Val.vS "" else Val.vF iv,
               delta := if 1 < |d| then Val.vS "" else Val.vF d },
          rest)) ∧
    (∀ (v nid nt : Int) (nm nx : String) (rest : List Tok),
      runD decodeNewsBulletin
          ([Tok.tint v, Tok.tint nid, Tok.tint nt, Tok.tstr nm,
            Tok.tstr nx] ++ rest) =
        .ok ({ news_id := nid, news_type := nt, news_message := nm,
               news_exchange := nx }, rest)) ∧
    (∀ (v dt : Int) (xml : String) (rest : List Tok),
      runD decodeReceiveFa
          ([Tok.tint v, Tok.tint dt, Tok.tstr xml] ++ rest) =
        .ok ({ data_type := dt, xml := xml }, rest)) ∧
    (∀ (v tid : Int) (r1 r2 : HistRowArgs) (rest : List Tok),
      runD decodeHistoricalData
          (Tok.tint v :: Tok.tint tid :: Tok.tint 2 ::
            (encodeHistRow r1 ++ encodeHistRow r2 ++ rest)) =
        .ok ({ version := v, tickerId := tid,
               rows := [expectedHistRow r1, expectedHistRow r2] },
          rest)) ∧
    (∀ (v : Int) (symbol : String) (rest : List Tok),
      runD decodeBondContractData ([Tok.tint v, Tok.tstr symbol] ++ rest) =
        .error .attrError ∧
      consumed decodeBondContractData
          ([Tok.tint v, Tok.tstr symbol] ++ rest) =
        [Tok.tint v, Tok.tstr symbol]) ∧
    (∀ (v : Int) (xml : String) (rest : List Tok),
      runD decodeScannerParameters ([Tok.tint v, Tok.tstr xml] ++ rest) =
        .ok ({ xml := xml }, rest)) ∧
    (∀ (v tid : Int) (rest : List Tok),
      runD decodeScannerData
          ([Tok.tint v, Tok.tint tid, Tok.tint 0] ++ rest) =
        .ok ({ tickerId := tid, rows := [] }, rest)) ∧
    (∀ (v tid rank : Int) (symbol : String) (rest : List Tok),
      runD decodeScannerData
          ([Tok.tint v, Tok.tint tid, Tok.tint 2, Tok.tint rank,
            Tok.tstr symbol] ++ rest) =
        .error .attrError ∧
      consumed decodeScannerData
          ([Tok.tint v, Tok.tint tid, Tok.tint 2, Tok.tint rank,
            Tok.tstr symbol] ++ rest) =
        [Tok.tint v, Tok.tint tid, Tok.tint 2, Tok.tint rank,
         Tok.tstr symbol]) := by
  refine ⟨?_, ?_, ?_, ?_, ?_, ?_, ?_, ?_, ?_, ?_, ?_, ?_, ?_, ?_, ?_,
    ?_, ?_, ?_, ?_, ?_, ?_, ?_, ?_, ?_, ?_, ?_, ?_, ?_, ?_, ?_, ?_, ?_,
    ?_, ?_, ?_, ?_, ?_, ?_, ?_, ?_, ?_, ?_, ?_, ?_, ?_, ?_, ?_⟩ <;>
    (intros; first | rfl | exact ⟨rfl, rfl⟩)
